import Mathlib

/-!
Shallow embedding of the Big Rocks app core (src/App.tsx, src/types.ts,
src/components/StatsView.tsx, src/utils/storage.ts).

Modelling conventions:
- timestamps (Date.now values) are Nat; settings counters are Int (they can
  go negative through the settings form, see updateMinNotifications);
- the calendar-day key function (new Date(t).toISOString().split at T) is an
  abstract parameter dayKey : Nat -> String, and the current day is an
  abstract parameter today : String;
- each call to Math.random is replaced by an explicit parameter carrying the
  integer the source derives from it (a random index, a random offset);
- JavaScript truthiness of a string-or-null value is: null is falsy, the
  empty string is falsy, every other string is truthy (strTruthy below);
- localStorage is a map from keys to stored JSON values; JSON.stringify and
  JSON.parse are modelled as the identity on a JSON value type, which is
  exact for the data the app stores.
-/

/-- Activity record from src/types.ts. -/
structure Activity where
  id : String
  text : String
  createdAt : Nat
deriving DecidableEq, Repr

/-- ActivityLog record from src/types.ts; isSummary is an optional field. -/
structure ActivityLog where
  id : String
  activityId : String
  activityText : String
  timestamp : Nat
  completed : Bool
  isSummary : Option Bool
deriving DecidableEq, Repr

/-- AppSettings record from src/types.ts. -/
structure AppSettings where
  minNotifications : Int
  maxNotifications : Int
  notificationsToday : Int
  lastGeneratedDate : String
deriving DecidableEq, Repr

/-- AppState record from src/types.ts: the seven persisted pieces of state. -/
structure AppState where
  activities : List Activity
  logs : List ActivityLog
  settings : AppSettings
  currentRock : Option Activity
  lastActivityId : Option String
  isSummaryPending : Bool
  hasSeenOnboarding : Bool
deriving DecidableEq, Repr

/-- JavaScript truthiness of a string-or-null value: null and the empty
string are falsy. -/
def strTruthy : Option String → Bool
  | none => false
  | some s => s ≠ ""

/-- Candidate pool built inside triggerNotification in src/App.tsx: start
from the activities list, and filter out the last activity id when the list
has more than one element and lastActivityId is truthy. -/
def selectPool (activities : List Activity) (lastActivityId : Option String) :
    List Activity :=
  match lastActivityId with
  | some t =>
      if 1 < activities.length ∧ t ≠ "" then
        activities.filter (fun a => a.id ≠ t)
      else activities
  | none => activities

/-- Selection step of triggerNotification in src/App.tsx: index the pool at
the random index r (Math.floor of Math.random times pool.length); out of
range indexing yields none, as the source would yield undefined. -/
def selectNext (activities : List Activity) (lastActivityId : Option String)
    (r : Nat) : Option Activity :=
  (selectPool activities lastActivityId)[r]?

/-- triggerNotification from src/App.tsx lines 131-161.  dayKey abstracts
the timestamp-to-day-string conversion, today the current day string, r the
random index drawn for the pool. -/
def triggerNotification (dayKey : Nat → String) (today : String) (r : Nat)
    (s : AppState) : AppState :=
  if s.currentRock.isSome || s.isSummaryPending then s
  else
    let todaysLogs := s.logs.filter fun l =>
      dayKey l.timestamp == today && l.activityId != "SUMMARY"
    if (todaysLogs.length : Int) ≥ s.settings.notificationsToday then
      { s with isSummaryPending := true }
    else if s.activities.length = 0 then s
    else { s with currentRock := selectNext s.activities s.lastActivityId r }

/-- handleRockResponse from src/App.tsx lines 163-177.  newId stands for the
crypto.randomUUID value, now for Date.now. -/
def handleRockResponse (completed : Bool) (newId : String) (now : Nat)
    (s : AppState) : AppState :=
  match s.currentRock with
  | none => s
  | some rock =>
      { s with
        logs := s.logs ++ [⟨newId, rock.id, rock.text, now, completed, none⟩]
        lastActivityId := some rock.id
        currentRock := none }

/-- handleSummaryDismiss from src/App.tsx. -/
def handleSummaryDismiss (s : AppState) : AppState :=
  { s with isSummaryPending := false }

/-- removeActivity from src/App.tsx lines 127-129. -/
def removeActivity (id : String) (s : AppState) : AppState :=
  { s with activities := s.activities.filter (fun a => a.id ≠ id) }

/-- The whitespace class of the JavaScript String.prototype.trim: ASCII
whitespace, NBSP, BOM and the Unicode space separators. -/
def isJsWhitespace (c : Char) : Bool :=
  c.toNat = 0x20 ∨ c.toNat = 0x9 ∨ c.toNat = 0xA ∨ c.toNat = 0xD ∨
  c.toNat = 0xB ∨ c.toNat = 0xC ∨ c.toNat = 0xA0 ∨ c.toNat = 0xFEFF ∨
  c.toNat = 0x1680 ∨ c.toNat = 0x2028 ∨ c.toNat = 0x2029 ∨
  c.toNat = 0x202F ∨ c.toNat = 0x205F ∨ c.toNat = 0x3000 ∨
  (0x2000 ≤ c.toNat ∧ c.toNat ≤ 0x200A)

/-- JavaScript String.prototype.trim: drop leading and trailing whitespace. -/
def jsTrim (s : String) : String :=
  String.mk
    (((s.data.dropWhile isJsWhitespace).reverse.dropWhile
        isJsWhitespace).reverse)

/-- addActivity from src/App.tsx lines 115-125: a blank (empty after trim)
text is rejected, otherwise one activity with the trimmed text is appended.
newId stands for crypto.randomUUID, now for Date.now. -/
def addActivity (text : String) (newId : String) (now : Nat)
    (s : AppState) : AppState :=
  if jsTrim text = "" then s
  else { s with activities := s.activities ++ [⟨newId, jsTrim text, now⟩] }

/-- Settings part of the day-rollover logic, inlined twice in src/App.tsx
(initialization effect lines 43-66 and handleVisibilityChange lines 70-106):
on a day mismatch, notificationsToday becomes min plus the random offset
(Math.floor of Math.random times range+1) and lastGeneratedDate becomes
today. -/
def checkRollover (settings : AppSettings) (today : String) (randomAdd : Int) :
    AppSettings :=
  if settings.lastGeneratedDate = today then settings
  else
    { settings with
      notificationsToday := settings.minNotifications + randomAdd
      lastGeneratedDate := today }

/-- State-level day-rollover check from src/App.tsx: on a day mismatch the
settings are regenerated and the daily transient state is reset
(isSummaryPending false, currentRock null); on a match nothing changes. -/
def dayRollover (s : AppState) (today : String) (randomAdd : Int) : AppState :=
  if s.settings.lastGeneratedDate = today then s
  else
    { s with
      settings := checkRollover s.settings today randomAdd
      isSummaryPending := false
      currentRock := none }

/-- Result of the parseInt-with-fallback idiom in renderSettings of
src/App.tsx: parseInt(x) or-else d.  parsed is none when parseInt returns
NaN; a parsed 0 is falsy and also falls back to d. -/
def inputVal (parsed : Option Int) (d : Int) : Int :=
  match parsed with
  | none => d
  | some v => if v = 0 then d else v

/-- Minimum-field onChange handler in renderSettings, src/App.tsx lines
366-377: the new minimum is Math.min of the parsed value (fallback 1) and
the current maximum. -/
def updateMinNotifications (s : AppSettings) (parsed : Option Int) :
    AppSettings :=
  { s with minNotifications := min (inputVal parsed 1) s.maxNotifications }

/-- Maximum-field onChange handler in renderSettings, src/App.tsx lines
379-391: the new maximum is Math.max of the parsed value (fallback 2) and
the current minimum. -/
def updateMaxNotifications (s : AppSettings) (parsed : Option Int) :
    AppSettings :=
  { s with maxNotifications := max (inputVal parsed 2) s.minNotifications }

/-- The Settings data-model invariant from the spec: minimum at least 1 and
at most the maximum. -/
def validSettings (s : AppSettings) : Prop :=
  1 ≤ s.minNotifications ∧ s.minNotifications ≤ s.maxNotifications

/-- Result record of the stats computation in src/components/StatsView.tsx. -/
structure StatsResult where
  completed : Nat
  total : Nat
  percentage : Int
deriving DecidableEq, Repr

/-- Filter predicate of the stats useMemo in src/components/StatsView.tsx
lines 40-45: summary entries (truthy isSummary, or the SUMMARY sentinel
activity id) are dropped; with no start date everything else is kept, with a
start date only entries strictly after it. -/
def keepLog (windowStart : Option Nat) (l : ActivityLog) : Bool :=
  if l.isSummary.getD false || l.activityId == "SUMMARY" then false
  else
    match windowStart with
    | none => true
    | some w => w < l.timestamp

/-- Stats computation from src/components/StatsView.tsx lines 15-52, with
the concrete range start dates abstracted into the windowStart parameter.
Math.round over the exact ratio is the Mathlib round (floor of x plus one
half), which agrees with JavaScript on these nonnegative values. -/
def stats (logs : List ActivityLog) (windowStart : Option Nat) : StatsResult :=
  let filteredLogs := logs.filter (keepLog windowStart)
  let completed := (filteredLogs.filter (fun l => l.completed)).length
  let total := filteredLogs.length
  let percentage : Int :=
    if total = 0 then 0 else round (((completed : ℚ) / total) * 100)
  ⟨completed, total, percentage⟩

/-- JSON values, the image of JSON.stringify slash JSON.parse for the data
the app persists; numbers are integers here (timestamps and counters). -/
inductive Json where
  | null : Json
  | bool (b : Bool) : Json
  | num (n : Int) : Json
  | str (s : String) : Json
  | arr (xs : List Json) : Json
  | obj (fields : List (String × Json)) : Json

/-- localStorage, modelled as a partial map from keys to stored values.
JSON.stringify before setItem and JSON.parse after getItem compose to the
identity on Json values, so the stored value is kept as Json directly; the
one key the source stores as a raw string (the last activity id) is kept as
a Json.str. -/
def Store : Type := String → Option Json

/-- localStorage.setItem. -/
def setKey (store : Store) (k : String) (v : Json) : Store :=
  fun q => if q = k then some v else store q

/-- localStorage.removeItem. -/
def removeKey (store : Store) (k : String) : Store :=
  fun q => if q = k then none else store q

/-- JSON.stringify image of an Activity. -/
def encodeActivity (a : Activity) : Json :=
  .obj [("id", .str a.id), ("text", .str a.text),
        ("createdAt", .num (a.createdAt : Int))]

/-- Reading an Activity back from its parsed JSON; the source casts the
parse result unchecked, so only the canonical shape written by saveData is
recognised here. -/
def decodeActivity : Json → Option Activity
  | .obj [("id", .str i), ("text", .str t), ("createdAt", .num c)] =>
      some ⟨i, t, c.toNat⟩
  | _ => none

/-- Element-wise decoding of an activities array. -/
def decodeActivityList : List Json → Option (List Activity)
  | [] => some []
  | j :: js =>
      match decodeActivity j, decodeActivityList js with
      | some a, some rest => some (a :: rest)
      | _, _ => none

/-- JSON.stringify image of an ActivityLog; JSON.stringify omits the
isSummary key when the field is undefined. -/
def encodeLog (l : ActivityLog) : Json :=
  .obj ([("id", .str l.id), ("activityId", .str l.activityId),
         ("activityText", .str l.activityText),
         ("timestamp", .num (l.timestamp : Int)),
         ("completed", .bool l.completed)] ++
        (match l.isSummary with
         | none => []
         | some b => [("isSummary", .bool b)]))

/-- Reading an ActivityLog back from its parsed JSON. -/
def decodeLog : Json → Option ActivityLog
  | .obj [("id", .str i), ("activityId", .str ai),
          ("activityText", .str at'), ("timestamp", .num ts),
          ("completed", .bool c)] =>
      some ⟨i, ai, at', ts.toNat, c, none⟩
  | .obj [("id", .str i), ("activityId", .str ai),
          ("activityText", .str at'), ("timestamp", .num ts),
          ("completed", .bool c), ("isSummary", .bool b)] =>
      some ⟨i, ai, at', ts.toNat, c, some b⟩
  | _ => none

/-- Element-wise decoding of a logs array. -/
def decodeLogList : List Json → Option (List ActivityLog)
  | [] => some []
  | j :: js =>
      match decodeLog j, decodeLogList js with
      | some l, some rest => some (l :: rest)
      | _, _ => none

/-- JSON.stringify image of an AppSettings record. -/
def encodeSettings (s : AppSettings) : Json :=
  .obj [("minNotifications", .num s.minNotifications),
        ("maxNotifications", .num s.maxNotifications),
        ("notificationsToday", .num s.notificationsToday),
        ("lastGeneratedDate", .str s.lastGeneratedDate)]

/-- Reading an AppSettings record back from its parsed JSON. -/
def decodeSettings : Json → Option AppSettings
  | .obj [("minNotifications", .num mn), ("maxNotifications", .num mx),
          ("notificationsToday", .num nt), ("lastGeneratedDate", .str d)] =>
      some ⟨mn, mx, nt, d⟩
  | _ => none

/-- JSON.stringify image of the current rock (an Activity or null). -/
def encodeCurrentRock : Option Activity → Json
  | none => .null
  | some a => encodeActivity a

/-- saveData from src/utils/storage.ts lines 33-50: writes the seven pieces
of state under their keys; the last activity id is written raw only when
truthy, and removed otherwise (an empty string is falsy and is removed). -/
def saveData (activities : List Activity) (logs : List ActivityLog)
    (settings : AppSettings) (currentRock : Option Activity)
    (lastActivityId : Option String) (isSummaryPending : Bool)
    (hasSeenOnboarding : Bool) (store : Store) : Store :=
  let st1 := setKey store "bigrocks_activities"
      (.arr (activities.map encodeActivity))
  let st2 := setKey st1 "bigrocks_logs" (.arr (logs.map encodeLog))
  let st3 := setKey st2 "bigrocks_settings" (encodeSettings settings)
  let st4 := setKey st3 "bigrocks_current_rock" (encodeCurrentRock currentRock)
  let st5 :=
    if strTruthy lastActivityId then
      setKey st4 "bigrocks_last_id" (.str (lastActivityId.getD ""))
    else removeKey st4 "bigrocks_last_id"
  let st6 := setKey st5 "bigrocks_summary_pending" (.bool isSummaryPending)
  setKey st6 "bigrocks_has_seen_onboarding" (.bool hasSeenOnboarding)

/-- loadInitialData from src/utils/storage.ts lines 13-31: reads the seven
pieces of state, substituting the documented default for a missing key.
today stands for the current day string used by the default settings. -/
def loadInitialData (store : Store) (today : String) : AppState :=
  let activities :=
    match store "bigrocks_activities" with
    | some (.arr xs) => (decodeActivityList xs).getD []
    | _ => []
  let logs :=
    match store "bigrocks_logs" with
    | some (.arr xs) => (decodeLogList xs).getD []
    | _ => []
  let settings :=
    match store "bigrocks_settings" with
    | some j => (decodeSettings j).getD ⟨3, 8, 5, today⟩
    | none => ⟨3, 8, 5, today⟩
  let currentRock :=
    match store "bigrocks_current_rock" with
    | some .null => none
    | some j => decodeActivity j
    | none => none
  let lastActivityId :=
    match store "bigrocks_last_id" with
    | some (.str s) => some s
    | _ => none
  let isSummaryPending :=
    match store "bigrocks_summary_pending" with
    | some (.bool b) => b
    | _ => false
  let hasSeenOnboarding :=
    match store "bigrocks_has_seen_onboarding" with
    | some (.bool b) => b
    | _ => false
  ⟨activities, logs, settings, currentRock, lastActivityId,
   isSummaryPending, hasSeenOnboarding⟩

/-- The user-intent and lifecycle events the core consumes; each carries the
ambient inputs the corresponding handler reads (day key function, current
day, fresh uuid, current time, random draw). -/
inductive Ev where
  | trig (dayKey : Nat → String) (today : String) (r : Nat) : Ev
  | respond (completed : Bool) (newId : String) (now : Nat) : Ev
  | dismiss : Ev
  | deleteAct (id : String) : Ev
  | addAct (text : String) (newId : String) (now : Nat) : Ev
  | roll (today : String) (randomAdd : Int) : Ev

/-- One step of the app state machine: dispatch an event to its handler. -/
def step (s : AppState) : Ev → AppState
  | .trig dayKey today r => triggerNotification dayKey today r s
  | .respond completed newId now => handleRockResponse completed newId now s
  | .dismiss => handleSummaryDismiss s
  | .deleteAct id => removeActivity id s
  | .addAct text newId now => addActivity text newId now s
  | .roll today randomAdd => dayRollover s today randomAdd

/-- Mutual-exclusion invariant of the prompt state machine: the current rock
and the pending-summary flag are never both truthy. -/
def MutexInv (s : AppState) : Prop :=
  s.currentRock = none ∨ s.isSummaryPending = false

/-- States reachable from a valid initial state (one satisfying the
mutual-exclusion invariant) by any sequence of events. -/
inductive Reachable : AppState → Prop where
  | base (s : AppState) (h : MutexInv s) : Reachable s
  | next (s : AppState) (e : Ev) (h : Reachable s) : Reachable (step s e)

/-! Helper lemmas shared by the claim theorems. -/

lemma setKey_eval (store : Store) (k : String) (v : Json) (q : String) :
    setKey store k v q = if q = k then some v else store q := rfl

lemma removeKey_eval (store : Store) (k : String) (q : String) :
    removeKey store k q = if q = k then none else store q := rfl

lemma decodeActivity_encode (a : Activity) :
    decodeActivity (encodeActivity a) = some a := by
  cases a
  rfl

lemma decodeActivityList_encode (l : List Activity) :
    decodeActivityList (l.map encodeActivity) = some l := by
  induction l with
  | nil => rfl
  | cons a rest ih =>
      simp only [List.map_cons, decodeActivityList, decodeActivity_encode, ih]

lemma decodeLog_encode (l : ActivityLog) : decodeLog (encodeLog l) = some l := by
  obtain ⟨i, ai, at', ts, c, os⟩ := l
  cases os with
  | none => rfl
  | some b => rfl

lemma decodeLogList_encode (l : List ActivityLog) :
    decodeLogList (l.map encodeLog) = some l := by
  induction l with
  | nil => rfl
  | cons a rest ih =>
      simp only [List.map_cons, decodeLogList, decodeLog_encode, ih]

lemma decodeSettings_encode (s : AppSettings) :
    decodeSettings (encodeSettings s) = some s := by
  cases s
  rfl

lemma trimList_nil (xs : List Char) :
    ((xs.dropWhile isJsWhitespace).reverse.dropWhile isJsWhitespace).reverse
        = [] ↔ (∀ x ∈ xs, isJsWhitespace x = true) := by
  rw [List.reverse_eq_nil_iff, List.dropWhile_eq_nil_iff]
  constructor
  · intro h x hx
    by_cases hw : isJsWhitespace x = true
    · exact hw
    · exfalso
      have hsplit := List.takeWhile_append_dropWhile isJsWhitespace xs
      rw [← hsplit] at hx
      rcases List.mem_append.mp hx with h1 | h2
      · exact hw (List.mem_takeWhile_imp h1)
      · exact hw (h x (List.mem_reverse.mpr h2))
  · intro h x hx
    exact h x (List.dropWhile_subset _ (List.mem_reverse.mp hx))

lemma jsTrim_eq_empty_iff (text : String) :
    jsTrim text = "" ↔ text.data.all isJsWhitespace = true := by
  unfold jsTrim
  rw [List.all_eq_true]
  constructor
  · intro h
    have hd := congrArg String.data h
    exact (trimList_nil text.data).mp (by simpa using hd)
  · intro h
    have h2 := (trimList_nil text.data).mpr h
    rw [h2]

lemma countP_today (dayKey : Nat → String) (today : String)
    (logs : List ActivityLog) :
    logs.countP
        (fun l => decide (dayKey l.timestamp = today ∧ l.activityId ≠ "SUMMARY"))
      = (logs.filter fun l =>
          dayKey l.timestamp == today && l.activityId != "SUMMARY").length := by
  rw [← List.countP_eq_length_filter]
  congr 1
  funext l
  by_cases h1 : dayKey l.timestamp = today <;>
    by_cases h2 : l.activityId = "SUMMARY" <;> simp [h1, h2]

lemma selectPool_subset (acts : List Activity) (lastId : Option String) :
    ∀ a ∈ selectPool acts lastId, a ∈ acts := by
  intro a ha
  cases lastId with
  | none => exact ha
  | some t =>
      simp only [selectPool] at ha
      by_cases hc : 1 < acts.length ∧ t ≠ ""
      · rw [if_pos hc] at ha
        exact (List.mem_filter.mp ha).1
      · rwa [if_neg hc] at ha

lemma mutex_step (s : AppState) (e : Ev) (h : MutexInv s) :
    MutexInv (step s e) := by
  cases e with
  | trig dayKey today r =>
      simp only [step, triggerNotification]
      by_cases hg : (s.currentRock.isSome || s.isSummaryPending) = true
      · rwa [if_pos hg]
      · rw [if_neg hg]
        rw [Bool.or_eq_true, not_or] at hg
        have hrock : s.currentRock = none :=
          Option.not_isSome_iff_eq_none.mp (by simpa using hg.1)
        have hsum : s.isSummaryPending = false := by simpa using hg.2
        by_cases hc : ((s.logs.filter fun l =>
            dayKey l.timestamp == today && l.activityId != "SUMMARY").length : Int)
            ≥ s.settings.notificationsToday
        · rw [if_pos hc]
          exact Or.inl hrock
        · rw [if_neg hc]
          by_cases he : s.activities.length = 0
          · rw [if_pos he]
            exact h
          · rw [if_neg he]
            exact Or.inr hsum
  | respond completed newId now =>
      cases hc : s.currentRock with
      | none => simpa [step, handleRockResponse, hc] using h
      | some rock =>
          simp only [step, handleRockResponse, hc]
          exact Or.inl rfl
  | dismiss => exact Or.inr rfl
  | deleteAct id => exact h
  | addAct text newId now =>
      simp only [step, addActivity]
      by_cases hc : jsTrim text = ""
      · rwa [if_pos hc]
      · rw [if_neg hc]
        exact h
  | roll today randomAdd =>
      simp only [step, dayRollover]
      by_cases hc : s.settings.lastGeneratedDate = today
      · rwa [if_pos hc]
      · rw [if_neg hc]
        exact Or.inl rfl

/-! Claim theorems. -/

/-- C1: from an Idle state (currentRock null, isSummaryPending false) the
Trigger event transitions to SummaryPending when the number of today's
non-summary log entries reaches notificationsToday; otherwise it is a no-op
when the activity pool is empty; otherwise it transitions to Prompting of
some activity from the pool (the hypothesis r below says the random index is
in range of the candidate pool, which Math.floor of Math.random times the
pool length always is). -/
theorem triggerNotification_spec (dayKey : Nat → String) (today : String)
    (r : Nat) (s : AppState) (hrock : s.currentRock = none)
    (hsum : s.isSummaryPending = false) :
    ((s.logs.countP (fun l =>
        decide (dayKey l.timestamp = today ∧ l.activityId ≠ "SUMMARY")) : Int)
        ≥ s.settings.notificationsToday →
      triggerNotification dayKey today r s
        = { s with isSummaryPending := true }) ∧
    (((s.logs.countP (fun l =>
        decide (dayKey l.timestamp = today ∧ l.activityId ≠ "SUMMARY")) : Int)
        < s.settings.notificationsToday) → s.activities = [] →
      triggerNotification dayKey today r s = s) ∧
    (((s.logs.countP (fun l =>
        decide (dayKey l.timestamp = today ∧ l.activityId ≠ "SUMMARY")) : Int)
        < s.settings.notificationsToday) → s.activities ≠ [] →
      r < (selectPool s.activities s.lastActivityId).length →
      ∃ a, a ∈ s.activities ∧
        triggerNotification dayKey today r s
          = { s with currentRock := some a }) := by
  have hguard : (s.currentRock.isSome || s.isSummaryPending) = false := by
    rw [hrock, hsum]
    rfl
  rw [countP_today]
  refine ⟨?_, ?_, ?_⟩
  · intro hcount
    rw [triggerNotification, if_neg (by simp [hguard]), if_pos hcount]
  · intro hcount hempty
    rw [triggerNotification, if_neg (by simp [hguard]),
      if_neg (not_le.mpr hcount), if_pos (by simp [hempty])]
  · intro hcount hne hr
    refine ⟨(selectPool s.activities s.lastActivityId)[r], ?_, ?_⟩
    · exact selectPool_subset _ _ _ (List.getElem_mem hr)
    · rw [triggerNotification, if_neg (by simp [hguard]),
        if_neg (not_le.mpr hcount), if_neg (by simp [hne]),
        selectNext, List.getElem?_eq_getElem hr]

/-- C1 witness: a concrete Idle state whose quota is already met moves to
SummaryPending. -/
def s1w : AppState :=
  ⟨[⟨"a1", "Run", 0⟩], [], ⟨1, 5, 0, "d"⟩, none, none, false, false⟩

/-- C1 witness: triggerNotification at a concrete Idle state with quota 0
sets the pending-summary flag. -/
theorem triggerNotification_spec_witness :
    triggerNotification (fun _ => "d") "d" 0 s1w
      = { s1w with isSummaryPending := true } :=
  (triggerNotification_spec (fun _ => "d") "d" 0 s1w rfl rfl).1 (by decide)

/-- C2: the day-rollover check leaves the state unchanged when
lastGeneratedDate already equals the current day; on a mismatch it sets
notificationsToday into the closed interval from minNotifications to
maxNotifications (equal to the minimum when the bounds coincide), stamps
lastGeneratedDate with today, clears currentRock and clears isSummaryPending.
The hypotheses on randomAdd say the random offset lies in its mathematical
range 0 to max minus min, which Math.floor of Math.random times range+1
always satisfies for valid settings. -/
theorem dayRollover_spec (s : AppState) (today : String) (randomAdd : Int)
    (hlo : 0 ≤ randomAdd)
    (hhi : randomAdd
      ≤ s.settings.maxNotifications - s.settings.minNotifications) :
    (s.settings.lastGeneratedDate = today → dayRollover s today randomAdd = s) ∧
    (s.settings.lastGeneratedDate ≠ today →
      s.settings.minNotifications
          ≤ (dayRollover s today randomAdd).settings.notificationsToday ∧
      (dayRollover s today randomAdd).settings.notificationsToday
          ≤ s.settings.maxNotifications ∧
      (s.settings.minNotifications = s.settings.maxNotifications →
        (dayRollover s today randomAdd).settings.notificationsToday
            = s.settings.minNotifications) ∧
      (dayRollover s today randomAdd).settings.lastGeneratedDate = today ∧
      (dayRollover s today randomAdd).currentRock = none ∧
      (dayRollover s today randomAdd).isSummaryPending = false) := by
  constructor
  · intro h
    simp [dayRollover, h]
  · intro h
    simp only [dayRollover, checkRollover, if_neg h]
    refine ⟨by omega, by omega, by intro he; omega, by trivial, by trivial,
      by trivial⟩

/-- C2 witness: a concrete state generated on the previous day, with a
pending summary to discard. -/
def s2w : AppState := ⟨[], [], ⟨1, 5, 3, "2024-01-01"⟩, none, none, true, false⟩

/-- C2 witness: rolling s2w over to 2024-01-02 with random offset 2 lands in
the quota interval, stamps the date and resets the daily state. -/
theorem dayRollover_spec_witness :
    s2w.settings.minNotifications
        ≤ (dayRollover s2w "2024-01-02" 2).settings.notificationsToday ∧
    (dayRollover s2w "2024-01-02" 2).settings.notificationsToday
        ≤ s2w.settings.maxNotifications ∧
    (s2w.settings.minNotifications = s2w.settings.maxNotifications →
      (dayRollover s2w "2024-01-02" 2).settings.notificationsToday
          = s2w.settings.minNotifications) ∧
    (dayRollover s2w "2024-01-02" 2).settings.lastGeneratedDate
        = "2024-01-02" ∧
    (dayRollover s2w "2024-01-02" 2).currentRock = none ∧
    (dayRollover s2w "2024-01-02" 2).isSummaryPending = false :=
  (dayRollover_spec s2w "2024-01-02" 2 (by decide) (by decide)).2 (by decide)

/-- C3: in every state reachable from a valid initial state by any sequence
of Trigger, Respond, DismissSummary, DeleteActivity, AddActivity and
rollover-check events, the current rock and the pending-summary flag are
never both truthy. -/
theorem reachable_mutualExclusion (s : AppState) (h : Reachable s) :
    MutexInv s := by
  induction h with
  | base s h => exact h
  | next s e _ ih => exact mutex_step s e ih

/-- C3 witness: a concrete initial state stepped through a dismiss event
still satisfies the mutual-exclusion invariant. -/
def s3w : AppState := ⟨[], [], ⟨1, 5, 3, "d"⟩, none, none, false, false⟩

/-- C3 witness: the invariant holds after one step from a concrete valid
initial state. -/
theorem reachable_mutualExclusion_witness : MutexInv (step s3w Ev.dismiss) :=
  reachable_mutualExclusion (step s3w Ev.dismiss)
    (Reachable.next s3w Ev.dismiss (Reachable.base s3w (Or.inl rfl)))

/-- C4: Respond while Prompting appends exactly one log entry carrying the
prompted activity's id and snapshot text, the given completed flag and the
current timestamp, sets lastActivityId, and returns to Idle, leaving
activities, settings and all earlier log entries unchanged; Respond while
not Prompting (currentRock null, which covers Idle and SummaryPending) is a
complete no-op. -/
theorem handleRockResponse_spec (s : AppState) (completed : Bool)
    (newId : String) (now : Nat) :
    (∀ a, s.currentRock = some a →
      handleRockResponse completed newId now s =
        { s with
          logs := s.logs ++ [⟨newId, a.id, a.text, now, completed, none⟩]
          lastActivityId := some a.id
          currentRock := none }) ∧
    (s.currentRock = none → handleRockResponse completed newId now s = s) := by
  constructor
  · intro a ha
    simp [handleRockResponse, ha]
  · intro h
    simp [handleRockResponse, h]

/-- C4 witness: a concrete Prompting state. -/
def s4w : AppState :=
  ⟨[], [], ⟨1, 5, 3, "d"⟩, some ⟨"a1", "Run", 0⟩, none, false, false⟩

/-- C4 witness: a concrete SummaryPending state, where Respond must be a
no-op. -/
def s4i : AppState := ⟨[], [], ⟨1, 5, 3, "d"⟩, none, none, true, false⟩

/-- C4 witness: responding in a concrete Prompting state logs and returns to
Idle, and responding in a concrete SummaryPending state changes nothing. -/
theorem handleRockResponse_spec_witness :
    handleRockResponse true "n1" 9 s4w =
      { s4w with
        logs := s4w.logs ++ [⟨"n1", "a1", "Run", 9, true, none⟩]
        lastActivityId := some "a1"
        currentRock := none } ∧
    handleRockResponse true "n1" 9 s4i = s4i :=
  ⟨(handleRockResponse_spec s4w true "n1" 9).1 ⟨"a1", "Run", 0⟩ rfl,
   (handleRockResponse_spec s4i true "n1" 9).2 rfl⟩

/-- C5 counterexample input: an activity whose id is the empty string. -/
def actEmptyId : Activity := ⟨"", "First", 0⟩

/-- C5 counterexample input: a second activity. -/
def actOther : Activity := ⟨"b", "Second", 0⟩

/-- C5 counterexample input: an Idle state whose lastActivityId is the empty
string and matches the first pool element. -/
def stateC5 : AppState :=
  ⟨[actEmptyId, actOther], [], ⟨1, 5, 3, "d"⟩, none, some "", false, false⟩

/-- C5 counterexample: with a two-element pool and lastActivityId equal to
the empty string, which matches the first element, the source guard treats
the empty string as falsy, applies no exclusion, and the Trigger selection
at random index 0 returns exactly the activity whose id equals lastId,
contradicting the claim as stated. -/
theorem selectNext_lastId_counterexample :
    1 < ([actEmptyId, actOther] : List Activity).length ∧
    actEmptyId ∈ [actEmptyId, actOther] ∧ actEmptyId.id = "" ∧
    stateC5.lastActivityId = some "" ∧
    selectNext [actEmptyId, actOther] (some "") 0 = some actEmptyId ∧
    triggerNotification (fun _ => "d") "x" 0 stateC5 =
      { stateC5 with currentRock := some actEmptyId } := by
  refine ⟨by decide, by decide, by decide, by decide, by decide, by decide⟩

/-- C5 (amended): when the pool has more than one element and lastId is a
non-empty string (the truthiness condition the source actually tests), any
activity the selection returns has an id different from lastId, in
particular when lastId matches a pool element; when lastId is the empty
string no exclusion is applied; and for a singleton pool the sole activity
is selected (the random index is necessarily 0) even when its id equals
lastId. -/
theorem selectNext_noRepeat (acts : List Activity) (t : String) (r : Nat) :
    (1 < acts.length → t ≠ "" →
      ∀ a, selectNext acts (some t) r = some a → a.id ≠ t) ∧
    (∀ (a : Activity) (lastId : Option String), acts = [a] → r < 1 →
      selectNext acts lastId r = some a) := by
  constructor
  · intro hlen ht a hsel
    rw [selectNext, selectPool, if_pos ⟨hlen, ht⟩] at hsel
    have hmem : a ∈ acts.filter (fun b => b.id ≠ t) :=
      List.getElem?_mem hsel
    have := (List.mem_filter.mp hmem).2
    simpa using this
  · intro a lastId hacts hr
    interval_cases r
    subst hacts
    cases lastId with
    | none => rfl
    | some t2 =>
        rw [selectNext, selectPool]
        rw [if_neg]
        · rfl
        · intro hc
          exact absurd hc.1 (by norm_num)

/-- C5 witness input: a two-element pool with distinct non-empty ids. -/
def acts5 : List Activity := [⟨"a", "A", 0⟩, ⟨"b", "B", 0⟩]

/-- C5 witness: on a concrete two-element pool the selected activity avoids
the non-empty lastId, and a concrete singleton pool returns its sole
activity even though its id equals lastId. -/
theorem selectNext_noRepeat_witness :
    (⟨"b", "B", 0⟩ : Activity).id ≠ "a" ∧
    selectNext [⟨"a", "A", 0⟩] (some "a") 0 = some ⟨"a", "A", 0⟩ :=
  ⟨(selectNext_noRepeat acts5 "a" 0).1 (by decide) (by decide) ⟨"b", "B", 0⟩
      (by decide),
   (selectNext_noRepeat [⟨"a", "A", 0⟩] "x" 0).2 ⟨"a", "A", 0⟩ (some "a") rfl
      (by decide)⟩

/-- C6 counterexample input: valid settings with minimum 1 and maximum 5. -/
def settingsC6 : AppSettings := ⟨1, 5, 3, "2024-01-01"⟩

/-- C6 counterexample: editing the minimum field with an input that parses
to -5 stores minNotifications equal to -5, because the parseInt fallback
only catches 0 and NaN and the handler clamps only against the maximum;
the invariant that the minimum is at least 1 fails, contradicting the claim
as stated. -/
theorem updateMinNotifications_counterexample :
    validSettings settingsC6 ∧
    (updateMinNotifications settingsC6 (some (-5))).minNotifications = -5 ∧
    ¬ validSettings (updateMinNotifications settingsC6 (some (-5))) := by
  refine ⟨⟨by norm_num [settingsC6], by norm_num [settingsC6]⟩, by rfl, ?_⟩
  intro hv
  have h1 := hv.1
  rw [show (updateMinNotifications settingsC6 (some (-5))).minNotifications
      = -5 from rfl] at h1
  norm_num at h1

/-- C6 (amended): starting from valid settings, a maximum-field edit always
preserves the full invariant that 1 is at most the minimum and the minimum
is at most the maximum; a minimum-field edit always preserves that the
minimum is at most the maximum, and preserves the full invariant whenever
the effective parsed value (after the fallback to 1 for unparsable or zero
input) is at least 1; a negative parsed value is clamped only against the
maximum, so it can drive the stored minimum below 1. -/
theorem updateSettings_clamped (s : AppSettings) (h : validSettings s)
    (parsed : Option Int) :
    validSettings (updateMaxNotifications s parsed) ∧
    (updateMinNotifications s parsed).minNotifications
        ≤ (updateMinNotifications s parsed).maxNotifications ∧
    (1 ≤ inputVal parsed 1 → validSettings (updateMinNotifications s parsed)) := by
  obtain ⟨h1, h2⟩ := h
  refine ⟨⟨h1, ?_⟩, ?_, fun hv => ⟨?_, ?_⟩⟩
  · exact le_max_right _ _
  · exact min_le_right _ _
  · exact le_min hv (le_trans h1 h2)
  · exact min_le_right _ _

/-- C6 witness input: valid settings with minimum 2 and maximum 6. -/
def s6w : AppSettings := ⟨2, 6, 4, "d"⟩

/-- C6 witness: a concrete max edit and a concrete min edit with a positive
parsed value both leave the settings valid. -/
theorem updateSettings_clamped_witness :
    validSettings (updateMaxNotifications s6w (some 7)) ∧
    validSettings (updateMinNotifications s6w (some 3)) :=
  ⟨(updateSettings_clamped s6w ⟨by decide, by decide⟩ (some 7)).1,
   (updateSettings_clamped s6w ⟨by decide, by decide⟩ (some 3)).2.2 (by decide)⟩

/-- C7 example input: one non-summary log entry completed or not. -/
def mkLog (i : Nat) (c : Bool) : ActivityLog := ⟨toString i, "a", "t", i, c, none⟩

/-- C7 example input: ten non-summary entries of which seven are completed. -/
def tenLogs : List ActivityLog :=
  [mkLog 1 true, mkLog 2 true, mkLog 3 true, mkLog 4 true, mkLog 5 true,
   mkLog 6 true, mkLog 7 true, mkLog 8 false, mkLog 9 false, mkLog 10 false]

/-- C7: the stats computation counts exactly the entries that are not
summaries (isSummary not true and activityId not the SUMMARY sentinel) and,
when a window start is given, have a strictly greater timestamp; the
percentage is 0 for an empty total and the round-half-up of 100 times
completed over total otherwise; on ten non-summary entries with seven
completed it returns completed 7, total 10, percentage 70. -/
theorem stats_spec (logs : List ActivityLog) (w : Option Nat) :
    (∀ l : ActivityLog, keepLog w l = true ↔
      (l.isSummary ≠ some true ∧ l.activityId ≠ "SUMMARY" ∧
        (w = none ∨ ∃ ws, w = some ws ∧ ws < l.timestamp))) ∧
    (stats logs w).total = logs.countP (keepLog w) ∧
    (stats logs w).completed
        = logs.countP (fun l => keepLog w l && l.completed) ∧
    ((stats logs w).total = 0 → (stats logs w).percentage = 0) ∧
    (0 < (stats logs w).total →
      (stats logs w).percentage =
        round ((100 * ((stats logs w).completed : ℚ)) / (stats logs w).total)) ∧
    stats tenLogs none = ⟨7, 10, 70⟩ := by
  refine ⟨?_, ?_, ?_, ?_, ?_, ?_⟩
  · intro l
    rw [keepLog.eq_def]
    cases hs : l.isSummary with
    | none =>
        cases w with
        | none => simp
        | some ws => simp
    | some b =>
        cases b with
        | true => simp
        | false =>
            cases w with
            | none => simp
            | some ws => simp
  · rw [stats, List.countP_eq_length_filter]
  · rw [stats]
    show ((logs.filter (keepLog w)).filter fun l => l.completed).length = _
    rw [← List.countP_eq_length_filter, List.countP_filter]
    congr 1
    funext l
    rw [Bool.and_comm]
  · intro h
    rw [stats] at h ⊢
    simp only at h
    simp [h]
  · intro h
    rw [stats] at h ⊢
    simp only at h ⊢
    rw [if_neg (by omega)]
    congr 1
    rw [mul_comm, mul_div_assoc]
  · have h1 : tenLogs.filter (keepLog none) = tenLogs := by decide
    have h2 : (tenLogs.filter fun l => l.completed).length = 7 := by decide
    have h3 : tenLogs.length = 10 := by decide
    simp only [stats, h1, h2, h3]
    norm_num [round_eq]

/-- C7 witness: the implications of the stats theorem discharged at the
concrete ten-entry list and at the empty list. -/
theorem stats_spec_witness :
    (stats tenLogs none).total = tenLogs.countP (keepLog none) ∧
    (stats ([] : List ActivityLog) none).percentage = 0 ∧
    (stats tenLogs none).percentage =
      round ((100 * ((stats tenLogs none).completed : ℚ))
        / (stats tenLogs none).total) :=
  ⟨(stats_spec tenLogs none).2.1,
   (stats_spec ([] : List ActivityLog) none).2.2.2.1 rfl,
   (stats_spec tenLogs none).2.2.2.2.1 (by decide)⟩

/-- C8 counterexample input: an empty localStorage. -/
def emptyStore : Store := fun _ => none

/-- C8 counterexample input: a state whose lastActivityId is the empty
string. -/
def stateC8 : AppState :=
  ⟨[], [], ⟨1, 5, 3, "2024-01-01"⟩, none, some "", false, false⟩

/-- C8 counterexample: saving a state whose lastActivityId is the empty
string removes the key (the empty string is falsy in the saveData guard),
and loading immediately afterwards returns null for it, so the seven values
do not round-trip, contradicting the claim as stated. -/
theorem saveData_roundtrip_counterexample :
    stateC8.lastActivityId = some "" ∧
    (loadInitialData
        (saveData stateC8.activities stateC8.logs stateC8.settings
          stateC8.currentRock stateC8.lastActivityId stateC8.isSummaryPending
          stateC8.hasSeenOnboarding emptyStore) "2024-01-01").lastActivityId
      = none :=
  ⟨rfl, rfl⟩

/-- C8 (amended): for every app state whose lastActivityId is not the empty
string (null or a non-empty string), loading immediately after saveData
wrote that state returns the same seven values, so in particular the prompt
state (currentRock and isSummaryPending) survives a restart exactly; a state
with an empty-string lastActivityId is restored with lastActivityId null
instead. -/
theorem saveData_load_roundtrip (s : AppState) (store : Store) (today : String)
    (h : s.lastActivityId = none ∨ ∃ t, s.lastActivityId = some t ∧ t ≠ "") :
    loadInitialData
      (saveData s.activities s.logs s.settings s.currentRock s.lastActivityId
        s.isSummaryPending s.hasSeenOnboarding store) today = s := by
  obtain ⟨acts, lgs, st, cr, la, sp, ob⟩ := s
  simp only at h
  have hla : (strTruthy la = false ∧ la = none) ∨
      (∃ t, la = some t ∧ strTruthy la = true) := by
    rcases h with h | ⟨t, ht, hne⟩
    · exact Or.inl ⟨by rw [h]; rfl, h⟩
    · refine Or.inr ⟨t, ht, ?_⟩
      rw [ht]
      simpa [strTruthy] using hne
  rcases hla with ⟨hfalse, hnone⟩ | ⟨t, hsome, htrue⟩
  · subst hnone
    simp only [saveData, loadInitialData, setKey_eval, removeKey_eval,
      strTruthy, decodeActivityList_encode, decodeLogList_encode,
      decodeSettings_encode]
    cases cr with
    | none =>
        simp [setKey_eval, removeKey_eval, encodeCurrentRock,
          decodeActivityList_encode, decodeLogList_encode,
          decodeSettings_encode, decodeActivity_encode]
    | some a =>
        obtain ⟨ai, atx, ac⟩ := a
        simp [setKey_eval, removeKey_eval, encodeCurrentRock, encodeActivity,
          decodeActivityList_encode, decodeLogList_encode,
          decodeSettings_encode, decodeActivity]
  · subst hsome
    simp only [saveData, loadInitialData, setKey_eval, removeKey_eval, htrue,
      decodeActivityList_encode, decodeLogList_encode, decodeSettings_encode]
    cases cr with
    | none =>
        simp [setKey_eval, removeKey_eval, encodeCurrentRock,
          decodeActivityList_encode, decodeLogList_encode,
          decodeSettings_encode, decodeActivity_encode]
    | some a =>
        obtain ⟨ai, atx, ac⟩ := a
        simp [setKey_eval, removeKey_eval, encodeCurrentRock, encodeActivity,
          decodeActivityList_encode, decodeLogList_encode,
          decodeSettings_encode, decodeActivity]

/-- C8 witness input: a populated state, prompting and with a non-empty
lastActivityId. -/
def s8w : AppState :=
  ⟨[⟨"a1", "Run", 0⟩], [⟨"l1", "a1", "Run", 4, true, none⟩],
   ⟨1, 5, 3, "2024-01-01"⟩, some ⟨"a1", "Run", 0⟩, some "a1", false, true⟩

/-- C8 witness: the concrete state s8w round-trips through save and load. -/
theorem saveData_load_roundtrip_witness :
    loadInitialData
      (saveData s8w.activities s8w.logs s8w.settings s8w.currentRock
        s8w.lastActivityId s8w.isSummaryPending s8w.hasSeenOnboarding
        emptyStore) "2024-01-01" = s8w :=
  saveData_load_roundtrip s8w emptyStore "2024-01-01"
    (Or.inr ⟨"a1", rfl, by decide⟩)

/-- C9: deleting the currently-prompting activity removes every pool entry
with its id but leaves currentRock, logs, settings and lastActivityId
unchanged, so the prompt stays active and a subsequent Respond still appends
a log entry carrying the snapshotted activity text. -/
theorem removeActivity_prompting_spec (s : AppState) (a : Activity)
    (h : s.currentRock = some a) (completed : Bool) (newId : String)
    (now : Nat) :
    (removeActivity a.id s).currentRock = some a ∧
    (removeActivity a.id s).logs = s.logs ∧
    (removeActivity a.id s).settings = s.settings ∧
    (removeActivity a.id s).lastActivityId = s.lastActivityId ∧
    (removeActivity a.id s).activities
        = s.activities.filter (fun b => b.id ≠ a.id) ∧
    (∀ b ∈ (removeActivity a.id s).activities, b.id ≠ a.id) ∧
    handleRockResponse completed newId now (removeActivity a.id s) =
      { removeActivity a.id s with
        logs := s.logs ++ [⟨newId, a.id, a.text, now, completed, none⟩]
        lastActivityId := some a.id
        currentRock := none } := by
  refine ⟨h, rfl, rfl, rfl, rfl, ?_, ?_⟩
  · intro b hb
    have := (List.mem_filter.mp hb).2
    simpa using this
  · simp [handleRockResponse, removeActivity, h]

/-- C9 witness input: a state prompting the first of two activities. -/
def s9w : AppState :=
  ⟨[⟨"a1", "Run", 0⟩, ⟨"b2", "Draw", 1⟩], [], ⟨1, 5, 3, "d"⟩,
   some ⟨"a1", "Run", 0⟩, none, false, false⟩

/-- C9 witness: after deleting the live prompt from s9w, Respond still logs
the snapshotted text and returns to Idle. -/
theorem removeActivity_prompting_spec_witness :
    handleRockResponse true "n1" 9 (removeActivity "a1" s9w) =
      { removeActivity "a1" s9w with
        logs := s9w.logs ++ [⟨"n1", "a1", "Run", 9, true, none⟩]
        lastActivityId := some "a1"
        currentRock := none } :=
  (removeActivity_prompting_spec s9w ⟨"a1", "Run", 0⟩ rfl true "n1" 9).2.2.2.2.2.2

/-- C10: AddActivity leaves the whole state unchanged when the text is empty
or whitespace-only (equivalently, when the JavaScript trim of the text is
empty), and otherwise appends exactly one activity carrying the trimmed
text, leaving all previously existing activities and every other state
component unchanged. -/
theorem addActivity_spec (s : AppState) (text newId : String) (now : Nat) :
    (jsTrim text = "" ↔ text.data.all isJsWhitespace = true) ∧
    (text.data.all isJsWhitespace = true → addActivity text newId now s = s) ∧
    (text.data.all isJsWhitespace = false →
      addActivity text newId now s =
        { s with activities := s.activities ++ [⟨newId, jsTrim text, now⟩] }) := by
  refine ⟨jsTrim_eq_empty_iff text, ?_, ?_⟩
  · intro h
    rw [addActivity, if_pos ((jsTrim_eq_empty_iff text).mpr h)]
  · intro h
    rw [addActivity, if_neg]
    intro hc
    rw [(jsTrim_eq_empty_iff text).mp hc] at h
    simp at h

/-- C10 witness input: an empty Idle state. -/
def s10w : AppState := ⟨[], [], ⟨1, 5, 3, "d"⟩, none, none, false, false⟩

/-- C10 witness: adding whitespace-only text changes nothing, and adding a
padded text appends one activity with the trimmed text. -/
theorem addActivity_spec_witness :
    addActivity "   " "n1" 5 s10w = s10w ∧
    addActivity " hi " "n2" 6 s10w =
      { s10w with activities := s10w.activities ++ [⟨"n2", jsTrim " hi ", 6⟩] } :=
  ⟨(addActivity_spec s10w "   " "n1" 5).2.1 (by decide),
   (addActivity_spec s10w " hi " "n2" 6).2.2 (by decide)⟩
